import Mathlib

/-!
Shallow embedding of the booking / appointment-state engine of the
online medical consultation backend (Go, gin + gorm).

Sources embedded here:
- backend/internal/models (the gorm models; the database schema is produced
  from these structs by AutoMigrate in the database package)
- backend/internal/repositories (appointment, slot, user, message,
  prescription and video-session repositories)
- backend/internal/services (appointment, slot, chat, prescription and
  video services)
- the VideoHandler.GetVideoSession HTTP handler.

Conventions of the embedding:
- `time.Time` instants are integers; `Clock.Now()` is an explicit `now`
  argument.
- gorm auto-increment primary keys are modelled with explicit `next*Id`
  counters in the database state.
- Go `(value, error)` returns are `Except String` with the exact error
  message strings of the source; a gorm "record not found" is collapsed
  into `Option`/an error message exactly where the calling service
  collapses it.
- Mutating operations return the new database state together with the
  result; read-only operations return only the result.
- gorm-managed bookkeeping columns (created_at, updated_at, deleted_at)
  are outside the embedding; soft delete is modelled as removal.
-/

namespace OMCA

/-- models.User (id, email, password_hash, role). -/
structure User where
  id : Nat
  email : String
  passwordHash : String
  role : String
deriving Repr, DecidableEq

/-- models.AvailabilitySlot database columns (id, doctor_id, start_time,
end_time, status). -/
structure AvailabilitySlot where
  id : Nat
  doctorId : Nat
  startTime : Int
  endTime : Int
  status : String
deriving Repr, DecidableEq

/-- models.Appointment database columns (id, patient_id, doctor_id, slot_id,
status, notes).  The Go struct declares no StartTime or EndTime field, so the
appointments table created by AutoMigrate has no such columns. -/
structure Appointment where
  id : Nat
  patientId : Nat
  doctorId : Nat
  slotId : Option Nat
  status : String
  notes : String
deriving Repr, DecidableEq

/-- models.Message database columns. -/
structure Message where
  id : Nat
  appointmentId : Nat
  senderUserId : Nat
  body : String
  attachmentUrl : Option String
  readAt : Option Int
deriving Repr, DecidableEq

/-- models.VideoSession database columns. -/
structure VideoSession where
  id : Nat
  appointmentId : Nat
  roomId : String
  startedAt : Option Int
  endedAt : Option Int
deriving Repr, DecidableEq

/-- A JSON value, at the level of detail needed for the prescription item
blob written by encoding/json: strings, arrays and objects. -/
inductive Json where
  | str : String → Json
  | arr : List Json → Json
  | obj : List (String × Json) → Json

/-- services.PrescriptionItem (the five string fields, with their json
tags medication_name, dosage, frequency, duration, instructions). -/
structure PrescriptionItem where
  medicationName : String
  dosage : String
  frequency : String
  duration : String
  instructions : String
deriving Repr, DecidableEq

/-- models.Prescription database columns.  ItemsJSON is the text column
holding the encoding/json serialization of a []PrescriptionItem; it is kept
here as the parsed JSON value (the serialization of a `Json` value to text
is injective, so nothing is lost). -/
structure Prescription where
  id : Nat
  appointmentId : Nat
  itemsJson : Json
  notes : String
  createdByDoctorId : Nat

/-- The persistent state: one list per table created by AutoMigrate, plus
the auto-increment counters. -/
structure DB where
  users : List User
  slots : List AvailabilitySlot
  appointments : List Appointment
  messages : List Message
  prescriptions : List Prescription
  videoSessions : List VideoSession
  nextSlotId : Nat
  nextAppointmentId : Nat
  nextMessageId : Nat
  nextPrescriptionId : Nat
  nextVideoSessionId : Nat

/-- services.CreateAppointmentRequest. -/
structure CreateAppointmentRequest where
  patientId : Nat
  doctorId : Nat
  slotId : Option Nat
  notes : String
  startTime : Int
  endTime : Int
deriving Repr, DecidableEq

/-- services.UpdateAppointmentStatusRequest. -/
structure UpdateAppointmentStatusRequest where
  appointmentId : Nat
  doctorId : Nat
  status : String
  notes : String
deriving Repr, DecidableEq

/-- services.SendMessageRequest. -/
structure SendMessageRequest where
  appointmentId : Nat
  senderUserId : Nat
  body : String
  attachmentUrl : Option String
deriving Repr, DecidableEq

/-- services.CreatePrescriptionRequest. -/
structure CreatePrescriptionRequest where
  appointmentId : Nat
  items : List PrescriptionItem
  notes : String
  createdByDoctorId : Nat
deriving Repr, DecidableEq

/-- services.UpdatePrescriptionRequest. -/
structure UpdatePrescriptionRequest where
  prescriptionId : Nat
  doctorId : Nat
  items : List PrescriptionItem
  notes : String
deriving Repr, DecidableEq

/-- services.CreateVideoSessionRequest (the fields the service reads). -/
structure CreateVideoSessionRequest where
  appointmentId : Nat
  createdByUserId : Nat
deriving Repr, DecidableEq

/-! ## Repository layer -/

/-- userRepository.FindByID: `db.First(&user, id)`; "record not found" is
`none`. -/
def findUserById (db : DB) (id : Nat) : Option User :=
  db.users.find? (fun u => u.id == id)

/-- appointmentRepository.FindByID: `db.Where("id = ?", id).First(...)`. -/
def findAppointmentById (db : DB) (id : Nat) : Option Appointment :=
  db.appointments.find? (fun a => a.id == id)

/-- The error a PostgreSQL query referencing a column that is not in the
table returns.  The appointments table is created by AutoMigrate from
models.Appointment, which has no StartTime or EndTime field, so it has no
start_time or end_time column. -/
def undefinedColumnMsg : String :=
  "ERROR: column start_time of relation appointments does not exist"

/-- The three-clause interval predicate written in the WHERE clause of
appointmentRepository.FindByDoctorAndTimeRange, as it would read on a row
carrying a start and an end instant. -/
def overlapClause (existingStart existingEnd newStart newEnd : Int) : Bool :=
  (existingStart ≤ newStart && existingEnd ≥ newStart) ||
  (existingStart ≤ newEnd && existingEnd ≥ newEnd) ||
  (existingStart ≥ newStart && existingEnd ≤ newEnd)

/-- appointmentRepository.FindByDoctorAndTimeRange: the query is
`doctor_id = ? AND ((start_time <= ? AND end_time >= ?) OR (start_time <= ?
AND end_time >= ?) OR (start_time >= ? AND end_time <= ?))` against the
appointments table.  That table (see `Appointment`) has no start_time or
end_time column, so PostgreSQL rejects the query with an undefined-column
error no matter what rows exist; the repository propagates the error. -/
def findByDoctorAndTimeRange (_db : DB) (_doctorId : Nat)
    (_startTime _endTime : Int) : Except String (List Appointment) :=
  Except.error undefinedColumnMsg

/-- appointmentRepository.Update: `db.Save(appointment)` writes the whole
row selected by primary key. -/
def appointmentUpdate (db : DB) (a : Appointment) : DB :=
  { db with appointments := db.appointments.map (fun b => if b.id == a.id then a else b) }

/-- The in-memory model struct slotRepository.FindByID returns: the loaded
columns plus the Appointment relation pointer. -/
structure SlotModel where
  record : AvailabilitySlot
  appointment : Option Appointment
deriving Repr, DecidableEq

/-- slotRepository.FindByID: `db.First(&slot, id)` loads the columns only;
there is no Preload, so the Appointment relation pointer stays nil. -/
def slotFindByID (db : DB) (id : Nat) : Option SlotModel :=
  (db.slots.find? (fun s => s.id == id)).map
    (fun s => { record := s, appointment := none })

/-- slotRepository.Delete: `db.Delete(&models.AvailabilitySlot, id)`. -/
def slotDelete (db : DB) (id : Nat) : DB :=
  { db with slots := db.slots.filter (fun s => s.id != id) }

/-- prescriptionRepository.FindByID. -/
def prescriptionFindByID (db : DB) (id : Nat) : Option Prescription :=
  db.prescriptions.find? (fun p => p.id == id)

/-- prescriptionRepository.FindByAppointmentID (order created_at DESC:
newest, i.e. highest id, first). -/
def prescriptionsOfAppointment (db : DB) (appointmentId : Nat) : List Prescription :=
  (db.prescriptions.filter (fun p => p.appointmentId == appointmentId)).reverse

/-- prescriptionRepository.Update: `db.Save(prescription)`. -/
def prescriptionUpdate (db : DB) (p : Prescription) : DB :=
  { db with prescriptions := db.prescriptions.map (fun q => if q.id == p.id then p else q) }

/-- prescriptionRepository.Delete. -/
def prescriptionDelete (db : DB) (id : Nat) : DB :=
  { db with prescriptions := db.prescriptions.filter (fun p => p.id != id) }

/-- The filter of messageRepository.MarkAsRead and GetUnreadCount:
`appointment_id = ? AND sender_user_id != ? AND read_at IS NULL`. -/
def unreadForUser (appointmentId userId : Nat) (m : Message) : Bool :=
  m.appointmentId == appointmentId && m.senderUserId != userId && m.readAt.isNone

/-- messageRepository.FindByAppointmentID: messages of the appointment,
created_at DESC (newest first), with offset and limit. -/
def messagesOfAppointment (db : DB) (appointmentId : Nat)
    (limit offset : Nat) : List Message :=
  (((db.messages.filter (fun m => m.appointmentId == appointmentId)).reverse).drop offset).take limit

/-- messageRepository.MarkAsRead: set read_at on every unread message of
the appointment authored by the other participant. -/
def messagesMarkAsRead (db : DB) (appointmentId userId : Nat) (now : Int) : DB :=
  let f := fun (m : Message) =>
    if unreadForUser appointmentId userId m then { m with readAt := some now } else m
  { db with messages := db.messages.map f }

/-- messageRepository.GetUnreadCount. -/
def messagesUnreadCount (db : DB) (appointmentId userId : Nat) : Nat :=
  (db.messages.filter (unreadForUser appointmentId userId)).length

/-- videoSessionRepository.FindByID. -/
def videoSessionFindByID (db : DB) (id : Nat) : Option VideoSession :=
  db.videoSessions.find? (fun v => v.id == id)

/-- The row filter of videoSessionRepository.FindActiveByAppointment:
`appointment_id = ? AND started_at IS NOT NULL AND ended_at IS NULL`. -/
def liveSessionRow (appointmentId : Nat) (v : VideoSession) : Bool :=
  v.appointmentId == appointmentId && v.startedAt.isSome && v.endedAt.isNone

/-- videoSessionRepository.FindActiveByAppointment: first matching row in
created_at DESC order (newest first); "record not found" is `none`. -/
def findActiveByAppointment (db : DB) (appointmentId : Nat) : Option VideoSession :=
  ((db.videoSessions.filter (liveSessionRow appointmentId)).reverse).head?

/-- videoSessionRepository.FindByAppointmentID (created_at DESC). -/
def videoSessionsOfAppointment (db : DB) (appointmentId : Nat) : List VideoSession :=
  (db.videoSessions.filter (fun v => v.appointmentId == appointmentId)).reverse

/-- videoSessionRepository.UpdateStartedAt: update started_at of the row
with the given id. -/
def videoSessionSetStartedAt (db : DB) (sessionId : Nat) (startedAt : Option Int) : DB :=
  let f := fun (v : VideoSession) =>
    if v.id == sessionId then { v with startedAt := startedAt } else v
  { db with videoSessions := db.videoSessions.map f }

/-- videoSessionRepository.UpdateEndedAt. -/
def videoSessionSetEndedAt (db : DB) (sessionId : Nat) (endedAt : Option Int) : DB :=
  let f := fun (v : VideoSession) =>
    if v.id == sessionId then { v with endedAt := endedAt } else v
  { db with videoSessions := db.videoSessions.map f }

/-! ## AppointmentService -/

/-- The appointment record CreateAppointment builds for insertion
(appointment_service.go lines 77 to 83): PatientID, DoctorID, SlotID,
Status "pending" and Notes from the request; the id is the auto-increment
key the insert assigns.  No field of the record is taken from the
request's StartTime or EndTime. -/
def mkAppointment (id : Nat) (req : CreateAppointmentRequest) : Appointment :=
  { id := id
    patientId := req.patientId
    doctorId := req.doctorId
    slotId := req.slotId
    status := "pending"
    notes := req.notes }

/-- AppointmentService.CreateAppointment: doctor existence and role check,
patient existence and role check, past-start check (`StartTime.Before(now)`),
range check (`EndTime.Before(StartTime)`), then the overlap fetch, the
non-cancelled scan, and the insert. -/
def createAppointment (db : DB) (now : Int) (req : CreateAppointmentRequest) :
    DB × Except String Appointment :=
  match findUserById db req.doctorId with
  | none => (db, Except.error "doctor not found")
  | some doctor =>
    if doctor.role != "doctor" then (db, Except.error "doctor not found")
    else match findUserById db req.patientId with
    | none => (db, Except.error "patient not found")
    | some patient =>
      if patient.role != "patient" then (db, Except.error "patient not found")
      else if req.startTime < now then (db, Except.error "start time cannot be in the past")
      else if req.endTime < req.startTime then (db, Except.error "end time must be after start time")
      else match findByDoctorAndTimeRange db req.doctorId req.startTime req.endTime with
      | Except.error e => (db, Except.error e)
      | Except.ok existing =>
        if existing.any (fun a => a.status != "cancelled") then
          (db, Except.error "time slot is already booked")
        else
          let appt := mkAppointment db.nextAppointmentId req
          let db' := { db with
            appointments := db.appointments ++ [appt]
            nextAppointmentId := db.nextAppointmentId + 1 }
          (db', Except.ok appt)

/-- The in-place mutation UpdateAppointmentStatus applies to the loaded
appointment (appointment_service.go lines 144 to 148): the status is
overwritten with the requested one, and the notes only when the request's
Notes is non-empty. -/
def applyStatusReq (a : Appointment) (req : UpdateAppointmentStatusRequest) : Appointment :=
  { a with
    status := req.status
    notes := if req.notes != "" then req.notes else a.notes }

/-- AppointmentService.UpdateAppointmentStatus: load, check the request's
DoctorID against the stored doctor, then write status (and possibly notes)
back.  No check of the current status is made. -/
def updateAppointmentStatus (db : DB) (req : UpdateAppointmentStatusRequest) :
    DB × Except String Appointment :=
  match findAppointmentById db req.appointmentId with
  | none => (db, Except.error "appointment not found")
  | some appointment =>
    if appointment.doctorId != req.doctorId then
      (db, Except.error "unauthorized to update this appointment")
    else
      let a := applyStatusReq appointment req
      (appointmentUpdate db a, Except.ok a)

/-- AppointmentService.CancelAppointment: load, participant check, terminal
status check, then write status "cancelled" back. -/
def cancelAppointment (db : DB) (appointmentId userId : Nat) :
    DB × Except String Unit :=
  match findAppointmentById db appointmentId with
  | none => (db, Except.error "appointment not found")
  | some appointment =>
    if appointment.patientId != userId && appointment.doctorId != userId then
      (db, Except.error "unauthorized to cancel this appointment")
    else if appointment.status == "completed" || appointment.status == "cancelled" then
      (db, Except.error "appointment cannot be cancelled")
    else
      (appointmentUpdate db { appointment with status := "cancelled" }, Except.ok ())

/-! ## SlotService -/

/-- SlotService.DeleteSlot: load via slotRepository.FindByID, owner check,
attached-appointment check on the loaded struct's Appointment pointer,
then delete.  FindByID does not preload the relation, so the pointer the
third check reads is always nil. -/
def deleteSlot (db : DB) (slotId doctorId : Nat) : DB × Except String Unit :=
  match slotFindByID db slotId with
  | none => (db, Except.error "record not found")
  | some slot =>
    if slot.record.doctorId != doctorId then
      (db, Except.error "unauthorized to delete this slot")
    else if slot.appointment.isSome then
      (db, Except.error "cannot delete slot with existing appointment")
    else
      (slotDelete db slotId, Except.ok ())

/-! ## ChatService -/

/-- The participant check each sub-resource service repeats on the loaded
appointment: `appointment.PatientID != userID && appointment.DoctorID !=
userID` guards the error branch. -/
def notParticipant (a : Appointment) (userId : Nat) : Bool :=
  a.patientId != userId && a.doctorId != userId

/-- ChatService.SendMessage: load the appointment, participant check on the
sender, insert the message (ReadAt starts null). -/
def sendMessage (db : DB) (req : SendMessageRequest) : DB × Except String Message :=
  match findAppointmentById db req.appointmentId with
  | none => (db, Except.error "appointment not found")
  | some appointment =>
    if notParticipant appointment req.senderUserId then
      (db, Except.error "unauthorized to send message to this appointment")
    else
      let m : Message :=
        { id := db.nextMessageId
          appointmentId := req.appointmentId
          senderUserId := req.senderUserId
          body := req.body
          attachmentUrl := req.attachmentUrl
          readAt := none }
      let db' := { db with
        messages := db.messages ++ [m]
        nextMessageId := db.nextMessageId + 1 }
      (db', Except.ok m)

/-- ChatService.GetMessages. -/
def getMessages (db : DB) (appointmentId userId : Nat) (limit offset : Nat) :
    Except String (List Message) :=
  match findAppointmentById db appointmentId with
  | none => Except.error "appointment not found"
  | some appointment =>
    if notParticipant appointment userId then
      Except.error "unauthorized to view messages for this appointment"
    else
      Except.ok (messagesOfAppointment db appointmentId limit offset)

/-- ChatService.MarkMessagesAsRead. -/
def markMessagesAsRead (db : DB) (appointmentId userId : Nat) (now : Int) :
    DB × Except String Unit :=
  match findAppointmentById db appointmentId with
  | none => (db, Except.error "appointment not found")
  | some appointment =>
    if notParticipant appointment userId then
      (db, Except.error "unauthorized to mark messages as read for this appointment")
    else
      (messagesMarkAsRead db appointmentId userId now, Except.ok ())

/-- ChatService.GetUnreadCount. -/
def getUnreadCount (db : DB) (appointmentId userId : Nat) : Except String Nat :=
  match findAppointmentById db appointmentId with
  | none => Except.error "appointment not found"
  | some appointment =>
    if notParticipant appointment userId then
      Except.error "unauthorized to get unread count for this appointment"
    else
      Except.ok (messagesUnreadCount db appointmentId userId)

/-! ## PrescriptionService and the encoding/json item blob -/

/-- encoding/json serialization of one PrescriptionItem: an object with the
five json-tag keys, in struct order. -/
def itemToJson (it : PrescriptionItem) : Json :=
  Json.obj
    [("medication_name", Json.str it.medicationName),
     ("dosage", Json.str it.dosage),
     ("frequency", Json.str it.frequency),
     ("duration", Json.str it.duration),
     ("instructions", Json.str it.instructions)]

/-- json.Marshal of a []PrescriptionItem: the array of item objects. -/
def marshalItems (items : List PrescriptionItem) : Json :=
  Json.arr (items.map itemToJson)

/-- Key lookup in a JSON object as json.Unmarshal resolves it: when a key
occurs repeatedly the last occurrence wins. -/
def jsonLookup (fields : List (String × Json)) (key : String) : Option Json :=
  (fields.reverse.find? (fun f => f.1 == key)).map (fun f => f.2)

/-- json.Unmarshal of one string field: an absent key leaves the zero value
"", a present string is taken, any other value is a type error. -/
def jsonStrField (fields : List (String × Json)) (key : String) : Except String String :=
  match jsonLookup fields key with
  | none => Except.ok ""
  | some (Json.str s) => Except.ok s
  | some _ => Except.error "json: cannot unmarshal value into field of type string"

/-- json.Unmarshal of one array element into a PrescriptionItem. -/
def decodeItem : Json → Except String PrescriptionItem
  | Json.obj fields => do
    let m ← jsonStrField fields "medication_name"
    let d ← jsonStrField fields "dosage"
    let f ← jsonStrField fields "frequency"
    let u ← jsonStrField fields "duration"
    let i ← jsonStrField fields "instructions"
    Except.ok { medicationName := m, dosage := d, frequency := f, duration := u, instructions := i }
  | _ => Except.error "json: cannot unmarshal value into PrescriptionItem"

/-- json.Unmarshal of the elements of the items array, in order. -/
def decodeItems : List Json → Except String (List PrescriptionItem)
  | [] => Except.ok []
  | j :: rest => do
    let it ← decodeItem j
    let its ← decodeItems rest
    Except.ok (it :: its)

/-- json.Unmarshal of an ItemsJSON blob into a []PrescriptionItem. -/
def unmarshalItems : Json → Except String (List PrescriptionItem)
  | Json.arr elems => decodeItems elems
  | _ => Except.error "json: cannot unmarshal value into slice"

/-- PrescriptionService.CreatePrescription: appointment load, doctor-of-the-
appointment check, doctor existence and role check, marshal the items, and
insert. -/
def createPrescription (db : DB) (req : CreatePrescriptionRequest) :
    DB × Except String Prescription :=
  match findAppointmentById db req.appointmentId with
  | none => (db, Except.error "appointment not found")
  | some appointment =>
    if appointment.doctorId != req.createdByDoctorId then
      (db, Except.error "unauthorized to create prescription for this appointment")
    else match findUserById db req.createdByDoctorId with
    | none => (db, Except.error "doctor not found")
    | some doctor =>
      if doctor.role != "doctor" then (db, Except.error "doctor not found")
      else
        let p : Prescription :=
          { id := db.nextPrescriptionId
            appointmentId := req.appointmentId
            itemsJson := marshalItems req.items
            notes := req.notes
            createdByDoctorId := req.createdByDoctorId }
        let db' := { db with
          prescriptions := db.prescriptions ++ [p]
          nextPrescriptionId := db.nextPrescriptionId + 1 }
        (db', Except.ok p)

/-- PrescriptionService.GetPrescriptions. -/
def getPrescriptions (db : DB) (appointmentId userId : Nat) :
    Except String (List Prescription) :=
  match findAppointmentById db appointmentId with
  | none => Except.error "appointment not found"
  | some appointment =>
    if notParticipant appointment userId then
      Except.error "unauthorized to view prescriptions for this appointment"
    else
      Except.ok (prescriptionsOfAppointment db appointmentId)

/-- PrescriptionService.GetPrescriptionDetails. -/
def getPrescriptionDetails (db : DB) (prescriptionId userId : Nat) :
    Except String Prescription :=
  match prescriptionFindByID db prescriptionId with
  | none => Except.error "prescription not found"
  | some prescription =>
    match findAppointmentById db prescription.appointmentId with
    | none => Except.error "appointment not found"
    | some appointment =>
      if notParticipant appointment userId then
        Except.error "unauthorized to view this prescription"
      else
        Except.ok prescription

/-- PrescriptionService.UpdatePrescription: load the prescription and its
appointment, doctor check, marshal the requested items, overwrite ItemsJSON
and Notes, and save the row. -/
def updatePrescription (db : DB) (req : UpdatePrescriptionRequest) :
    DB × Except String Prescription :=
  match prescriptionFindByID db req.prescriptionId with
  | none => (db, Except.error "prescription not found")
  | some prescription =>
    match findAppointmentById db prescription.appointmentId with
    | none => (db, Except.error "appointment not found")
    | some appointment =>
      if appointment.doctorId != req.doctorId then
        (db, Except.error "unauthorized to update this prescription")
      else
        let p := { prescription with
          itemsJson := marshalItems req.items
          notes := req.notes }
        (prescriptionUpdate db p, Except.ok p)

/-- PrescriptionService.DeletePrescription. -/
def deletePrescription (db : DB) (prescriptionId userId : Nat) :
    DB × Except String Unit :=
  match prescriptionFindByID db prescriptionId with
  | none => (db, Except.error "prescription not found")
  | some prescription =>
    match findAppointmentById db prescription.appointmentId with
    | none => (db, Except.error "appointment not found")
    | some appointment =>
      if appointment.doctorId != userId then
        (db, Except.error "unauthorized to delete this prescription")
      else
        (prescriptionDelete db prescriptionId, Except.ok ())

/-- PrescriptionService.GetPrescriptionItems: unmarshal the stored blob. -/
def getPrescriptionItems (prescription : Prescription) :
    Except String (List PrescriptionItem) :=
  unmarshalItems prescription.itemsJson

/-! ## VideoService -/

/-- VideoService.CreateVideoSession: appointment load, participant check,
active-session check, then insert a session whose StartedAt and EndedAt are
both null.  The crypto/rand room id is an argument of the embedding. -/
def createVideoSession (db : DB) (req : CreateVideoSessionRequest)
    (userId : Nat) (roomId : String) : DB × Except String VideoSession :=
  match findAppointmentById db req.appointmentId with
  | none => (db, Except.error "appointment not found")
  | some appointment =>
    if notParticipant appointment userId then
      (db, Except.error "unauthorized to create video session for this appointment")
    else
      let conflict := match findActiveByAppointment db req.appointmentId with
        | some existingSession =>
          existingSession.startedAt.isSome && existingSession.endedAt.isNone
        | none => false
      if conflict then
        (db, Except.error "active video session already exists for this appointment")
      else
        let v : VideoSession :=
          { id := db.nextVideoSessionId
            appointmentId := req.appointmentId
            roomId := roomId
            startedAt := none
            endedAt := none }
        let db' := { db with
          videoSessions := db.videoSessions ++ [v]
          nextVideoSessionId := db.nextVideoSessionId + 1 }
        (db', Except.ok v)

/-- VideoService.GetVideoSession: loads the session by id; the function
takes no acting user and performs no access check of its own. -/
def getVideoSession (db : DB) (sessionId : Nat) : Except String VideoSession :=
  match videoSessionFindByID db sessionId with
  | none => Except.error "video session not found"
  | some session => Except.ok session

/-- VideoService.ValidateSessionAccess: session load, appointment load,
participant check. -/
def validateSessionAccess (db : DB) (sessionId userId : Nat) : Except String Unit :=
  match videoSessionFindByID db sessionId with
  | none => Except.error "video session not found"
  | some session =>
    match findAppointmentById db session.appointmentId with
    | none => Except.error "appointment not found"
    | some appointment =>
      if notParticipant appointment userId then
        Except.error "unauthorized to access this video session"
      else
        Except.ok ()

/-- VideoService.StartVideoSession: access check, then UpdateStartedAt with
the current instant — whatever the session's prior state. -/
def startVideoSession (db : DB) (sessionId userId : Nat) (now : Int) :
    DB × Except String Unit :=
  match validateSessionAccess db sessionId userId with
  | Except.error e => (db, Except.error e)
  | Except.ok _ => (videoSessionSetStartedAt db sessionId (some now), Except.ok ())

/-- VideoService.EndVideoSession. -/
def endVideoSession (db : DB) (sessionId userId : Nat) (now : Int) :
    DB × Except String Unit :=
  match validateSessionAccess db sessionId userId with
  | Except.error e => (db, Except.error e)
  | Except.ok _ => (videoSessionSetEndedAt db sessionId (some now), Except.ok ())

/-- VideoService.GetVideoSessionsByAppointment. -/
def getVideoSessionsByAppointment (db : DB) (appointmentId userId : Nat) :
    Except String (List VideoSession) :=
  match findAppointmentById db appointmentId with
  | none => Except.error "appointment not found"
  | some appointment =>
    if notParticipant appointment userId then
      Except.error "unauthorized to view video sessions for this appointment"
    else
      Except.ok (videoSessionsOfAppointment db appointmentId)

/-- VideoService.GetWebRTCOffer: access check, then a fixed placeholder
offer string. -/
def getWebRTCOffer (db : DB) (sessionId userId : Nat) : Except String String :=
  match validateSessionAccess db sessionId userId with
  | Except.error e => Except.error e
  | Except.ok _ => Except.ok "webrtc_offer_data"

/-- VideoService.SetWebRTCAnswer: access check, then a no-op success. -/
def setWebRTCAnswer (db : DB) (sessionId userId : Nat) : Except String Unit :=
  match validateSessionAccess db sessionId userId with
  | Except.error e => Except.error e
  | Except.ok _ => Except.ok ()

/-- VideoHandler.GetVideoSession (the GET sessions route): loads the session
through the service, then runs ValidateSessionAccess for the acting user;
a non-participant receives the Forbidden error and no session data. -/
def handlerGetVideoSession (db : DB) (sessionId userId : Nat) :
    Except String VideoSession :=
  match getVideoSession db sessionId with
  | Except.error e => Except.error e
  | Except.ok session =>
    match validateSessionAccess db sessionId userId with
    | Except.error e => Except.error e
    | Except.ok _ => Except.ok session

/-! ## Reachability under the booking and status operations -/

/-- An appointment that still occupies the doctor's timeline: status
pending or confirmed. -/
def isActive (a : Appointment) : Prop :=
  a.status = "pending" ∨ a.status = "confirmed"

/-- One call of a booking or appointment-status operation:
CreateAppointment, UpdateAppointmentStatus or CancelAppointment, with any
request and any clock value. -/
inductive BookingStep : DB → DB → Prop where
  | create (db : DB) (now : Int) (req : CreateAppointmentRequest) :
      BookingStep db (createAppointment db now req).1
  | updateStatus (db : DB) (req : UpdateAppointmentStatusRequest) :
      BookingStep db (updateAppointmentStatus db req).1
  | cancel (db : DB) (appointmentId userId : Nat) :
      BookingStep db (cancelAppointment db appointmentId userId).1

/-- States reachable through the booking and status operations from a
start state holding no appointment rows (the migration seeds users only). -/
inductive Reachable : DB → Prop where
  | start (db : DB) : db.appointments = [] → Reachable db
  | step {db db' : DB} : Reachable db → BookingStep db db' → Reachable db'

/-! ## Concrete states used in the theorems -/

/-- A doctor account (role "doctor"), as the seed data creates one. -/
def docUser : User :=
  { id := 1, email := "doctor1@example.com", passwordHash := "h", role := "doctor" }

/-- A patient account (role "patient"). -/
def patUser : User :=
  { id := 2, email := "patient1@example.com", passwordHash := "h", role := "patient" }

/-- A third account that participates in no appointment below. -/
def otherUser : User :=
  { id := 3, email := "other@example.com", passwordHash := "h", role := "patient" }

/-- A freshly migrated state: accounts only, no appointment rows. -/
def baseDB : DB :=
  { users := [docUser, patUser, otherUser]
    slots := []
    appointments := []
    messages := []
    prescriptions := []
    videoSessions := []
    nextSlotId := 1
    nextAppointmentId := 1
    nextMessageId := 1
    nextPrescriptionId := 1
    nextVideoSessionId := 1 }

/-- An open availability slot of the doctor. -/
def slotOne : AvailabilitySlot :=
  { id := 1, doctorId := 1, startTime := 100, endTime := 200, status := "open" }

/-- A pending appointment of patient 2 with doctor 1, attached to slot 1. -/
def apptPending : Appointment :=
  { id := 1, patientId := 2, doctorId := 1, slotId := some 1, status := "pending", notes := "n" }

/-- A completed appointment of patient 2 with doctor 1. -/
def apptCompleted : Appointment :=
  { id := 1, patientId := 2, doctorId := 1, slotId := none, status := "completed", notes := "" }

/-- The prescription line item of the specification's round-trip property. -/
def itemAmox : PrescriptionItem :=
  { medicationName := "Amoxicillin", dosage := "500mg", frequency := "3x/day"
    duration := "7 days", instructions := "" }

/-- A second, different line item. -/
def itemIbu : PrescriptionItem :=
  { medicationName := "Ibuprofen", dosage := "200mg", frequency := "2x/day"
    duration := "5 days", instructions := "after meals" }

/-- A stored prescription for appointment 1 holding the Amoxicillin item. -/
def prescOne : Prescription :=
  { id := 1, appointmentId := 1, itemsJson := marshalItems [itemAmox]
    notes := "", createdByDoctorId := 1 }

/-- An unstarted video session of appointment 1. -/
def sessionOne : VideoSession :=
  { id := 1, appointmentId := 1, roomId := "room1", startedAt := none, endedAt := none }

/-- A state with one pending booked appointment and its sub-resources. -/
def dbBooked : DB :=
  { baseDB with
    slots := [slotOne]
    appointments := [apptPending]
    prescriptions := [prescOne]
    videoSessions := [sessionOne]
    nextSlotId := 2
    nextAppointmentId := 2
    nextPrescriptionId := 2
    nextVideoSessionId := 2 }

/-- A state whose single appointment is completed. -/
def dbCompleted : DB :=
  { baseDB with appointments := [apptCompleted], nextAppointmentId := 2 }

/-- A pending appointment with no slot reference. -/
def apptNoSlot : Appointment :=
  { id := 1, patientId := 2, doctorId := 1, slotId := none, status := "pending", notes := "" }

/-- A state with one pending appointment and no video session yet. -/
def dbApptOnly : DB :=
  { baseDB with appointments := [apptNoSlot], nextAppointmentId := 2 }

/-- A started and not yet ended video session of appointment 1. -/
def liveSession : VideoSession :=
  { id := 1, appointmentId := 1, roomId := "room1", startedAt := some 5, endedAt := none }

/-- A state whose appointment has a live video session. -/
def dbLive : DB :=
  { baseDB with
    appointments := [apptNoSlot]
    videoSessions := [liveSession]
    nextAppointmentId := 2
    nextVideoSessionId := 2 }

/-- A state where slot 1 has the attached pending appointment 1. -/
def dbSlotBooked : DB :=
  { baseDB with
    slots := [slotOne]
    appointments := [apptPending]
    nextSlotId := 2
    nextAppointmentId := 2 }

/-- A video session creation request for appointment 1 by patient 2. -/
def reqV : CreateVideoSessionRequest := { appointmentId := 1, createdByUserId := 2 }

/-! ## General lemmas about the operations -/

/-- Every CreateAppointment call fails and leaves the state untouched:
each validation failure returns early, and a call that passes validation
dies in the overlap fetch, whose query names columns the appointments
table does not have. -/
theorem createAppointment_always_fails (db : DB) (now : Int)
    (req : CreateAppointmentRequest) :
    ∃ e, createAppointment db now req = (db, Except.error e) := by
  unfold createAppointment findByDoctorAndTimeRange
  repeat' split
  all_goals try exact ⟨_, rfl⟩
  all_goals contradiction

/-- UpdateAppointmentStatus adds no appointment row. -/
theorem updateAppointmentStatus_keeps_nil (db : DB)
    (req : UpdateAppointmentStatusRequest) (h : db.appointments = []) :
    (updateAppointmentStatus db req).1.appointments = [] := by
  unfold updateAppointmentStatus findAppointmentById
  rw [h]
  exact h

/-- CancelAppointment adds no appointment row. -/
theorem cancelAppointment_keeps_nil (db : DB) (appointmentId userId : Nat)
    (h : db.appointments = []) :
    (cancelAppointment db appointmentId userId).1.appointments = [] := by
  unfold cancelAppointment findAppointmentById
  rw [h]
  exact h

/-- Through the booking and status operations the appointments table never
gains a row: CreateAppointment always fails before its insert, and the two
status operations only rewrite existing rows. -/
theorem reachable_appointments_nil {db : DB} (h : Reachable db) :
    db.appointments = [] := by
  induction h with
  | start _ h0 => exact h0
  | step _ s ih =>
    cases s with
    | create now req =>
      obtain ⟨e, he⟩ := createAppointment_always_fails _ now req
      rw [he]
      exact ih
    | updateStatus req => exact updateAppointmentStatus_keeps_nil _ req ih
    | cancel aid uid => exact cancelAppointment_keeps_nil _ aid uid ih

/-- A gorm Save by primary key (map over the table replacing the rows with
the saved key) turns a successful find into a find of the saved row. -/
theorem find?_map_update {α : Type} (key : α → Nat) (l : List α) (i : Nat)
    (a a' : α) (h : l.find? (fun b => key b == i) = some a)
    (hid : key a' = key a) :
    (l.map (fun b => if key b == key a' then a' else b)).find?
      (fun b => key b == i) = some a' := by
  have hfs := List.find?_some h
  have hai : key a = i := by simpa using hfs
  induction l with
  | nil => simp at h
  | cons b t ih =>
    by_cases hb : (key b == i) = true
    · have hcons : List.find? (fun c => key c == i) (b :: t) = some b :=
        List.find?_cons_of_pos t hb
      have hb' : (key b == key a') = true := by
        rw [hid, hai]
        exact hb
      have ha' : (key a' == i) = true := by
        rw [hid, hai]
        exact beq_self_eq_true i
      rw [List.map_cons, if_pos hb']
      exact List.find?_cons_of_pos _ ha'
    · have hcons : List.find? (fun c => key c == i) (b :: t)
          = List.find? (fun c => key c == i) t :=
        List.find?_cons_of_neg t hb
      have ht : t.find? (fun c => key c == i) = some a := by
        rw [hcons] at h
        exact h
      have hb' : ¬ (key b == key a') = true := by
        rw [hid, hai]
        exact hb
      have hcons2 : List.find? (fun c => key c == i)
            (b :: t.map (fun c => if key c == key a' then a' else c))
          = List.find? (fun c => key c == i)
            (t.map (fun c => if key c == key a' then a' else c)) :=
        List.find?_cons_of_neg _ hb
      rw [List.map_cons, if_neg hb', hcons2]
      exact ih ht

/-- The participant guard fires exactly on users who are neither the
patient nor the doctor of the appointment. -/
theorem notParticipant_eq_true {a : Appointment} {u : Nat}
    (hp : a.patientId ≠ u) (hd : a.doctorId ≠ u) :
    notParticipant a u = true := by
  unfold notParticipant
  rw [Bool.and_eq_true, bne_iff_ne, bne_iff_ne]
  exact ⟨hp, hd⟩

/-- A participant passes the guard. -/
theorem notParticipant_eq_false {a : Appointment} {u : Nat}
    (hu : u = a.patientId ∨ u = a.doctorId) :
    notParticipant a u = false := by
  unfold notParticipant
  cases hu with
  | inl h => simp [h]
  | inr h => simp [h]

/-- json.Unmarshal inverts json.Marshal on one prescription item. -/
theorem decodeItem_itemToJson (x : PrescriptionItem) :
    decodeItem (itemToJson x) = Except.ok x := rfl

/-- json.Unmarshal inverts json.Marshal on a whole item list. -/
theorem decodeItems_map (items : List PrescriptionItem) :
    decodeItems (items.map itemToJson) = Except.ok items := by
  induction items with
  | nil => rfl
  | cons x xs ih =>
    simp only [List.map_cons, decodeItems, decodeItem_itemToJson]
    rw [ih]
    rfl

/-- json.Unmarshal inverts json.Marshal on a whole item list. -/
theorem unmarshal_marshal (items : List PrescriptionItem) :
    unmarshalItems (marshalItems items) = Except.ok items := by
  unfold unmarshalItems marshalItems
  exact decodeItems_map items

/-- When the appointment has a live (started, unended) session row, the
FindActiveByAppointment query returns one such row. -/
theorem findActive_of_live {db : DB} {aid : Nat} {v : VideoSession}
    (hv : v ∈ db.videoSessions) (hl : liveSessionRow aid v = true) :
    ∃ w, findActiveByAppointment db aid = some w ∧ liveSessionRow aid w = true := by
  unfold findActiveByAppointment
  have hmem : v ∈ db.videoSessions.filter (liveSessionRow aid) :=
    List.mem_filter.mpr ⟨hv, hl⟩
  cases hh : (db.videoSessions.filter (liveSessionRow aid)).reverse.head? with
  | none =>
    rw [List.head?_eq_none_iff, List.reverse_eq_nil_iff] at hh
    rw [hh] at hmem
    simp at hmem
  | some w =>
    refine ⟨w, rfl, ?_⟩
    have hwmem : w ∈ (db.videoSessions.filter (liveSessionRow aid)).reverse :=
      List.mem_of_mem_head? hh
    rw [List.mem_reverse] at hwmem
    exact (List.mem_filter.mp hwmem).2

/-- When the appointment has no live session row, the query finds none. -/
theorem findActive_none_of_no_live {db : DB} {aid : Nat}
    (h : ∀ v, v ∈ db.videoSessions → liveSessionRow aid v = false) :
    findActiveByAppointment db aid = none := by
  unfold findActiveByAppointment
  have : db.videoSessions.filter (liveSessionRow aid) = [] := by
    rw [List.filter_eq_nil_iff]
    intro v hv
    rw [h v hv]
    exact Bool.false_ne_true
  rw [this]
  rfl

/-! ## Claim theorems -/

/-- C1: CreateAppointment never reaches the conflict decision or the
insert the claim describes.  Every call fails and leaves the state
unchanged: validation failures return early, and a call passing
validation dies in the overlap fetch because the appointments table has
no start_time or end_time column; in particular the concrete valid
request below fails with the undefined-column error instead of inserting
a pending appointment. -/
theorem c1_createAppointment_never_reaches_overlap_check :
    (∀ (db : DB) (now : Int) (req : CreateAppointmentRequest),
        ∃ e, createAppointment db now req = (db, Except.error e))
  ∧ createAppointment baseDB 0
      { patientId := 2, doctorId := 1, slotId := none, notes := ""
        startTime := 10, endTime := 20 }
      = (baseDB, Except.error undefinedColumnMsg) := by
  constructor
  · exact createAppointment_always_fails
  · rfl

/-- C2: in every state reachable through the booking and status
operations there are no two distinct active appointments of the same
doctor at all — hence none whose time ranges overlap, under any reading
of overlap (the stored appointment rows carry no time range). -/
theorem c2_no_two_overlapping_active_appointments (db : DB)
    (h : Reachable db) (ov : Appointment → Appointment → Prop) :
    ¬ ∃ a, a ∈ db.appointments ∧ ∃ b, b ∈ db.appointments ∧
      a ≠ b ∧ isActive a ∧ isActive b ∧ a.doctorId = b.doctorId ∧ ov a b := by
  intro hex
  obtain ⟨a, ha, -⟩ := hex
  rw [reachable_appointments_nil h] at ha
  simp at ha

/-- Witness for C2: the start state is reachable and satisfies the
invariant. -/
theorem c2_no_two_overlapping_active_appointments_witness :
    Reachable baseDB
  ∧ ¬ ∃ a, a ∈ baseDB.appointments ∧ ∃ b, b ∈ baseDB.appointments ∧
      a ≠ b ∧ isActive a ∧ isActive b ∧ a.doctorId = b.doctorId ∧ a.id = b.id :=
  ⟨Reachable.start baseDB rfl,
   c2_no_two_overlapping_active_appointments baseDB (Reachable.start baseDB rfl)
     (fun a b => a.id = b.id)⟩

/-- C9: the record CreateAppointment writes carries only patientId,
doctorId, slotId, status "pending" and notes from the request; it is
invariant under the request's StartTime and EndTime, and an Appointment
value has no fields beyond id, patientId, doctorId, slotId, status and
notes. -/
theorem c9_request_times_dropped :
    (∀ (id : Nat) (req : CreateAppointmentRequest) (s e : Int),
        mkAppointment id req
          = mkAppointment id { req with startTime := s, endTime := e })
  ∧ (∀ (id : Nat) (req : CreateAppointmentRequest),
        mkAppointment id req
          = { id := id, patientId := req.patientId, doctorId := req.doctorId
              slotId := req.slotId, status := "pending", notes := req.notes })
  ∧ (∀ a : Appointment,
        a = { id := a.id, patientId := a.patientId, doctorId := a.doctorId
              slotId := a.slotId, status := a.status, notes := a.notes }) :=
  ⟨fun _ _ _ _ => rfl, fun _ _ => rfl, fun _ => rfl⟩

/-- C6: SlotService.DeleteSlot deletes a slot that has an attached
appointment.  The slot loaded by slotRepository.FindByID always carries a
nil Appointment pointer (no Preload), so the conflict guard never fires:
concretely, slot 1 is deleted by its owner although the pending
appointment 1 references it. -/
theorem c6_slot_delete_succeeds_despite_attached_appointment :
    (∀ (db : DB) (id : Nat), slotFindByID db id = none
        ∨ ∃ s, slotFindByID db id = some { record := s, appointment := none })
  ∧ dbSlotBooked.appointments = [apptPending]
  ∧ apptPending.slotId = some 1
  ∧ deleteSlot dbSlotBooked 1 1 = ({ dbSlotBooked with slots := [] }, Except.ok ()) := by
  refine ⟨?_, rfl, rfl, rfl⟩
  intro db id
  unfold slotFindByID
  cases h : db.slots.find? (fun s => s.id == id) with
  | none => exact Or.inl rfl
  | some s => exact Or.inr ⟨s, rfl⟩

/-- C3 counterexample: with appointment 1 completed, the doctor's request
to set status "confirmed" succeeds and changes the stored status — a
transition out of the terminal state completed, which the claim says must
be rejected with the status left unchanged. -/
theorem c3_counterexample :
    updateAppointmentStatus dbCompleted
      { appointmentId := 1, doctorId := 1, status := "confirmed", notes := "" }
      = ({ dbCompleted with appointments := [{ apptCompleted with status := "confirmed" }] },
         Except.ok { apptCompleted with status := "confirmed" }) := rfl

/-- C3 amended: UpdateAppointmentStatus performs no transition-table
validation — whenever the appointment exists and the request's DoctorID
matches the stored doctor, the requested status is written whatever the
current status is, including out of cancelled and completed; only
CancelAppointment rejects terminal states, failing on a completed or
cancelled appointment and leaving the state unchanged. -/
theorem c3_amended_no_transition_validation :
    (∀ (db : DB) (req : UpdateAppointmentStatusRequest) (a : Appointment),
        findAppointmentById db req.appointmentId = some a →
        a.doctorId = req.doctorId →
        updateAppointmentStatus db req
          = (appointmentUpdate db (applyStatusReq a req), Except.ok (applyStatusReq a req))
        ∧ (applyStatusReq a req).status = req.status
        ∧ findAppointmentById (appointmentUpdate db (applyStatusReq a req)) req.appointmentId
            = some (applyStatusReq a req))
  ∧ (∀ (db : DB) (appointmentId userId : Nat) (a : Appointment),
        findAppointmentById db appointmentId = some a →
        (a.patientId = userId ∨ a.doctorId = userId) →
        (a.status = "completed" ∨ a.status = "cancelled") →
        cancelAppointment db appointmentId userId
          = (db, Except.error "appointment cannot be cancelled")) := by
  constructor
  · intro db req a hfind hdoc
    have hbe : (a.doctorId != req.doctorId) = false := by
      simp [hdoc]
    refine ⟨?_, rfl, ?_⟩
    · unfold updateAppointmentStatus
      rw [hfind]
      simp [hbe]
    · have hf : List.find? (fun b => b.id == req.appointmentId) db.appointments = some a := hfind
      exact @find?_map_update Appointment (fun x => x.id) db.appointments
        req.appointmentId a (applyStatusReq a req) hf rfl
  · intro db appointmentId userId a hfind hu hterm
    have hguard : (a.patientId != userId && a.doctorId != userId) = false := by
      cases hu with
      | inl h => simp [h]
      | inr h => simp [h]
    have hterm' : (a.status == "completed" || a.status == "cancelled") = true := by
      cases hterm with
      | inl h => simp [h]
      | inr h => simp [h]
    unfold cancelAppointment
    rw [hfind]
    simp [hguard, hterm']

/-- Witness for C3: at the completed appointment a completed→pending write
succeeds, and a cancel of the completed appointment is rejected. -/
theorem c3_amended_no_transition_validation_witness :
    updateAppointmentStatus dbCompleted
      { appointmentId := 1, doctorId := 1, status := "pending", notes := "" }
      = (appointmentUpdate dbCompleted
          (applyStatusReq apptCompleted
            { appointmentId := 1, doctorId := 1, status := "pending", notes := "" }),
         Except.ok (applyStatusReq apptCompleted
            { appointmentId := 1, doctorId := 1, status := "pending", notes := "" }))
  ∧ cancelAppointment dbCompleted 1 2
      = (dbCompleted, Except.error "appointment cannot be cancelled") := by
  constructor
  · exact (c3_amended_no_transition_validation.1 dbCompleted
      { appointmentId := 1, doctorId := 1, status := "pending", notes := "" }
      apptCompleted rfl rfl).1
  · exact c3_amended_no_transition_validation.2 dbCompleted 1 2 apptCompleted rfl
      (Or.inl rfl) (Or.inl rfl)

/-- C10: UpdateAppointmentStatus writes back the loaded row with only the
status overwritten and — exactly when the request's Notes is non-empty —
the notes; an empty Notes leaves the stored notes unchanged, and id,
patientId, doctorId and slotId are never modified. -/
theorem c10_update_status_frame (db : DB)
    (req : UpdateAppointmentStatusRequest) (a : Appointment)
    (hfind : findAppointmentById db req.appointmentId = some a)
    (hdoc : a.doctorId = req.doctorId) :
    updateAppointmentStatus db req
      = (appointmentUpdate db (applyStatusReq a req), Except.ok (applyStatusReq a req))
  ∧ (req.notes = "" → (applyStatusReq a req).notes = a.notes)
  ∧ (applyStatusReq a req).id = a.id
  ∧ (applyStatusReq a req).patientId = a.patientId
  ∧ (applyStatusReq a req).doctorId = a.doctorId
  ∧ (applyStatusReq a req).slotId = a.slotId
  ∧ findAppointmentById (appointmentUpdate db (applyStatusReq a req)) req.appointmentId
      = some (applyStatusReq a req) := by
  have hbe : (a.doctorId != req.doctorId) = false := by
    simp [hdoc]
  refine ⟨?_, ?_, rfl, rfl, rfl, rfl, ?_⟩
  · unfold updateAppointmentStatus
    rw [hfind]
    simp [hbe]
  · intro hn
    unfold applyStatusReq
    simp [hn]
  · have hf : List.find? (fun b => b.id == req.appointmentId) db.appointments = some a := hfind
    exact @find?_map_update Appointment (fun x => x.id) db.appointments
      req.appointmentId a (applyStatusReq a req) hf rfl

/-- Witness for C10: confirming the pending appointment with an empty
Notes leaves the stored notes intact. -/
theorem c10_update_status_frame_witness :
    updateAppointmentStatus dbBooked
      { appointmentId := 1, doctorId := 1, status := "confirmed", notes := "" }
      = (appointmentUpdate dbBooked
          (applyStatusReq apptPending
            { appointmentId := 1, doctorId := 1, status := "confirmed", notes := "" }),
         Except.ok (applyStatusReq apptPending
            { appointmentId := 1, doctorId := 1, status := "confirmed", notes := "" }))
  ∧ (applyStatusReq apptPending
      { appointmentId := 1, doctorId := 1, status := "confirmed", notes := "" }).notes
      = apptPending.notes := by
  have h := c10_update_status_frame dbBooked
    { appointmentId := 1, doctorId := 1, status := "confirmed", notes := "" }
    apptPending rfl rfl
  exact ⟨h.1, h.2.1 rfl⟩

/-- C7 counterexample: a request whose end equals its start passes the
time validation — the call fails with the overlap-fetch storage error,
not with the end-time validation error the claim requires. -/
theorem c7_counterexample :
    createAppointment baseDB 0
      { patientId := 2, doctorId := 1, slotId := none, notes := ""
        startTime := 10, endTime := 10 }
      = (baseDB, Except.error undefinedColumnMsg)
  ∧ undefinedColumnMsg ≠ "end time must be after start time"
  ∧ undefinedColumnMsg ≠ "start time cannot be in the past" := by
  refine ⟨rfl, ?_, ?_⟩ <;> decide

/-- C7 amended: CreateAppointment rejects a missing doctor or one whose
role is not "doctor", a missing patient or one whose role is not
"patient", and a start in the past; its range check rejects only
end < start, so end == start passes validation and the call proceeds to
the overlap fetch (failing there with the storage error).  Every failure
leaves the state unchanged. -/
theorem c7_amended_validation (db : DB) (now : Int) (req : CreateAppointmentRequest) :
    (findUserById db req.doctorId = none →
       createAppointment db now req = (db, Except.error "doctor not found"))
  ∧ (∀ doctor, findUserById db req.doctorId = some doctor → doctor.role ≠ "doctor" →
       createAppointment db now req = (db, Except.error "doctor not found"))
  ∧ (∀ doctor, findUserById db req.doctorId = some doctor → doctor.role = "doctor" →
       (findUserById db req.patientId = none →
          createAppointment db now req = (db, Except.error "patient not found"))
     ∧ (∀ patient, findUserById db req.patientId = some patient → patient.role ≠ "patient" →
          createAppointment db now req = (db, Except.error "patient not found"))
     ∧ (∀ patient, findUserById db req.patientId = some patient → patient.role = "patient" →
          (req.startTime < now →
             createAppointment db now req
               = (db, Except.error "start time cannot be in the past"))
        ∧ (now ≤ req.startTime → req.endTime < req.startTime →
             createAppointment db now req
               = (db, Except.error "end time must be after start time"))
        ∧ (now ≤ req.startTime → req.startTime ≤ req.endTime →
             createAppointment db now req = (db, Except.error undefinedColumnMsg)))) := by
  refine ⟨?_, ?_, ?_⟩
  · intro h
    unfold createAppointment
    rw [h]
  · intro doctor h hrole
    have hr : (doctor.role != "doctor") = true := bne_iff_ne.mpr hrole
    unfold createAppointment
    rw [h]
    simp [hr]
  · intro doctor h hrole
    have hr : (doctor.role != "doctor") = false := by simp [hrole]
    refine ⟨?_, ?_, ?_⟩
    · intro hp
      unfold createAppointment
      rw [h]
      simp [hr, hp]
    · intro patient hp hprole
      have hpr : (patient.role != "patient") = true := bne_iff_ne.mpr hprole
      unfold createAppointment
      rw [h]
      simp [hr, hp, hpr]
    · intro patient hp hprole
      have hpr : (patient.role != "patient") = false := by simp [hprole]
      refine ⟨?_, ?_, ?_⟩
      · intro hpast
        unfold createAppointment
        rw [h]
        simp [hr, hp, hpr, hpast]
      · intro hge hlt
        have h1 : ¬ req.startTime < now := not_lt.mpr hge
        unfold createAppointment
        rw [h]
        simp [hr, hp, hpr, h1, hlt]
      · intro hge hle
        have h1 : ¬ req.startTime < now := not_lt.mpr hge
        have h2 : ¬ req.endTime < req.startTime := not_lt.mpr hle
        unfold createAppointment findByDoctorAndTimeRange
        rw [h]
        simp [hr, hp, hpr, h1, h2]

/-- Witness for C7: each validation branch at a concrete request against
the seeded accounts, including the accepted end == start range. -/
theorem c7_amended_validation_witness :
    createAppointment baseDB 0
      { patientId := 2, doctorId := 5, slotId := none, notes := ""
        startTime := 10, endTime := 20 }
      = (baseDB, Except.error "doctor not found")
  ∧ createAppointment baseDB 0
      { patientId := 2, doctorId := 2, slotId := none, notes := ""
        startTime := 10, endTime := 20 }
      = (baseDB, Except.error "doctor not found")
  ∧ createAppointment baseDB 0
      { patientId := 9, doctorId := 1, slotId := none, notes := ""
        startTime := 10, endTime := 20 }
      = (baseDB, Except.error "patient not found")
  ∧ createAppointment baseDB 0
      { patientId := 1, doctorId := 1, slotId := none, notes := ""
        startTime := 10, endTime := 20 }
      = (baseDB, Except.error "patient not found")
  ∧ createAppointment baseDB 20
      { patientId := 2, doctorId := 1, slotId := none, notes := ""
        startTime := 10, endTime := 30 }
      = (baseDB, Except.error "start time cannot be in the past")
  ∧ createAppointment baseDB 0
      { patientId := 2, doctorId := 1, slotId := none, notes := ""
        startTime := 10, endTime := 5 }
      = (baseDB, Except.error "end time must be after start time")
  ∧ createAppointment baseDB 0
      { patientId := 2, doctorId := 1, slotId := none, notes := ""
        startTime := 10, endTime := 10 }
      = (baseDB, Except.error undefinedColumnMsg) := by
  refine ⟨?_, ?_, ?_, ?_, ?_, ?_, ?_⟩
  · exact (c7_amended_validation baseDB 0
      { patientId := 2, doctorId := 5, slotId := none, notes := ""
        startTime := 10, endTime := 20 }).1 rfl
  · exact (c7_amended_validation baseDB 0
      { patientId := 2, doctorId := 2, slotId := none, notes := ""
        startTime := 10, endTime := 20 }).2.1 patUser rfl (by decide)
  · exact ((c7_amended_validation baseDB 0
      { patientId := 9, doctorId := 1, slotId := none, notes := ""
        startTime := 10, endTime := 20 }).2.2 docUser rfl rfl).1 rfl
  · exact ((c7_amended_validation baseDB 0
      { patientId := 1, doctorId := 1, slotId := none, notes := ""
        startTime := 10, endTime := 20 }).2.2 docUser rfl rfl).2.1 docUser rfl (by decide)
  · exact (((c7_amended_validation baseDB 20
      { patientId := 2, doctorId := 1, slotId := none, notes := ""
        startTime := 10, endTime := 30 }).2.2 docUser rfl rfl).2.2 patUser rfl rfl).1
      (by decide)
  · exact (((c7_amended_validation baseDB 0
      { patientId := 2, doctorId := 1, slotId := none, notes := ""
        startTime := 10, endTime := 5 }).2.2 docUser rfl rfl).2.2 patUser rfl rfl).2.1
      (by decide) (by decide)
  · exact (((c7_amended_validation baseDB 0
      { patientId := 2, doctorId := 1, slotId := none, notes := ""
        startTime := 10, endTime := 10 }).2.2 docUser rfl rfl).2.2 patUser rfl rfl).2.2
      (by decide) (by decide)

/-- C8: UpdatePrescription replaces the stored row's ItemsJSON wholesale
with the marshalled requested list (and the notes), independently of the
previously stored items, and reading the items back through
GetPrescriptionItems yields exactly the requested list. -/
theorem c8_prescription_items_replace_roundtrip (db : DB)
    (req : UpdatePrescriptionRequest) (p : Prescription) (a : Appointment)
    (hp : prescriptionFindByID db req.prescriptionId = some p)
    (ha : findAppointmentById db p.appointmentId = some a)
    (hd : a.doctorId = req.doctorId) :
    updatePrescription db req
      = (prescriptionUpdate db
          { p with itemsJson := marshalItems req.items, notes := req.notes },
         Except.ok { p with itemsJson := marshalItems req.items, notes := req.notes })
  ∧ getPrescriptionItems
      { p with itemsJson := marshalItems req.items, notes := req.notes }
      = Except.ok req.items
  ∧ prescriptionFindByID
      (prescriptionUpdate db
        { p with itemsJson := marshalItems req.items, notes := req.notes })
      req.prescriptionId
      = some { p with itemsJson := marshalItems req.items, notes := req.notes } := by
  have hbe : (a.doctorId != req.doctorId) = false := by
    simp [hd]
  refine ⟨?_, ?_, ?_⟩
  · unfold updatePrescription
    rw [hp]
    simp [ha, hbe]
  · unfold getPrescriptionItems
    exact unmarshal_marshal req.items
  · have hf : List.find? (fun q => q.id == req.prescriptionId) db.prescriptions = some p := hp
    exact @find?_map_update Prescription (fun x => x.id) db.prescriptions
      req.prescriptionId p
      { p with itemsJson := marshalItems req.items, notes := req.notes } hf rfl

/-- Witness for C8: updating the stored Amoxicillin prescription with the
Ibuprofen list reads back exactly the new list. -/
theorem c8_prescription_items_replace_roundtrip_witness :
    updatePrescription dbBooked
      { prescriptionId := 1, doctorId := 1, items := [itemIbu], notes := "x" }
      = (prescriptionUpdate dbBooked
          { prescOne with itemsJson := marshalItems [itemIbu], notes := "x" },
         Except.ok { prescOne with itemsJson := marshalItems [itemIbu], notes := "x" })
  ∧ getPrescriptionItems
      { prescOne with itemsJson := marshalItems [itemIbu], notes := "x" }
      = Except.ok [itemIbu] := by
  have h := c8_prescription_items_replace_roundtrip dbBooked
    { prescriptionId := 1, doctorId := 1, items := [itemIbu], notes := "x" }
    prescOne apptPending rfl rfl rfl
  exact ⟨h.1, h.2.1⟩

/-- C5 counterexample: with appointment 1 pending and no session yet, two
CreateVideoSession calls in a row both succeed — the second is not a
conflict, because the first session was never started — and after starting
both sessions the appointment holds two live (started, unended) sessions
at once. -/
theorem c5_counterexample :
    (createVideoSession (createVideoSession dbApptOnly reqV 2 "room1").1 reqV 2 "room2").2
      = Except.ok { id := 2, appointmentId := 1, roomId := "room2"
                    startedAt := none, endedAt := none }
  ∧ ((startVideoSession (startVideoSession
        (createVideoSession (createVideoSession dbApptOnly reqV 2 "room1").1 reqV 2 "room2").1
        1 2 50).1 2 2 60).1.videoSessions.filter (liveSessionRow 1)).length = 2 := by
  constructor <;> rfl

/-- C5 amended: CreateVideoSession refuses a new session only while a
started and unended session of the appointment exists; when no live
session exists the call succeeds — even if unstarted sessions are already
attached — inserting a fresh session with null StartedAt and EndedAt. -/
theorem c5_amended_conflict_only_for_live (db : DB)
    (req : CreateVideoSessionRequest) (userId : Nat) (roomId : String)
    (a : Appointment)
    (hfind : findAppointmentById db req.appointmentId = some a)
    (hu : userId = a.patientId ∨ userId = a.doctorId) :
    ((∃ v, v ∈ db.videoSessions ∧ liveSessionRow req.appointmentId v = true) →
       createVideoSession db req userId roomId
         = (db, Except.error "active video session already exists for this appointment"))
  ∧ ((∀ v, v ∈ db.videoSessions → liveSessionRow req.appointmentId v = false) →
       createVideoSession db req userId roomId
         = ({ db with
              videoSessions := db.videoSessions
                ++ [{ id := db.nextVideoSessionId, appointmentId := req.appointmentId
                      roomId := roomId, startedAt := none, endedAt := none }]
              nextVideoSessionId := db.nextVideoSessionId + 1 },
            Except.ok { id := db.nextVideoSessionId, appointmentId := req.appointmentId
                        roomId := roomId, startedAt := none, endedAt := none })) := by
  have hnp : notParticipant a userId = false := notParticipant_eq_false hu
  constructor
  · intro hex
    obtain ⟨v, hv, hl⟩ := hex
    obtain ⟨w, hw, hwl⟩ := findActive_of_live hv hl
    unfold liveSessionRow at hwl
    simp only [Bool.and_eq_true] at hwl
    obtain ⟨⟨h1, h2⟩, h3⟩ := hwl
    unfold createVideoSession
    rw [hfind]
    simp [hnp, hw, h2, h3]
  · intro hnone
    have hfa : findActiveByAppointment db req.appointmentId = none :=
      findActive_none_of_no_live hnone
    unfold createVideoSession
    rw [hfind]
    simp [hnp, hfa]

/-- Witness for C5: the state with a live session refuses a second
session; the fresh state accepts the first one. -/
theorem c5_amended_conflict_only_for_live_witness :
    createVideoSession dbLive reqV 2 "room9"
      = (dbLive, Except.error "active video session already exists for this appointment")
  ∧ createVideoSession dbApptOnly reqV 2 "room1"
      = ({ dbApptOnly with videoSessions := [sessionOne], nextVideoSessionId := 2 },
         Except.ok sessionOne) := by
  constructor
  · exact (c5_amended_conflict_only_for_live dbLive reqV 2 "room9" apptNoSlot rfl
      (Or.inl rfl)).1 ⟨liveSession, by simp [dbLive], rfl⟩
  · exact (c5_amended_conflict_only_for_live dbApptOnly reqV 2 "room1" apptNoSlot rfl
      (Or.inl rfl)).2 (by intro v hv; simp [dbApptOnly, baseDB] at hv)

/-- C4: every embedded chat, prescription and video operation, called by a
user who is neither the patient nor the doctor of the appointment, returns
its unauthorized error and leaves the state unchanged. -/
theorem c4_non_participant_always_rejected (db : DB) (aid u : Nat)
    (a : Appointment) (limit offset : Nat) (now : Int) (body : String)
    (att : Option String) (items : List PrescriptionItem) (nts room : String)
    (hfind : findAppointmentById db aid = some a)
    (hp : a.patientId ≠ u) (hd : a.doctorId ≠ u) :
    sendMessage db { appointmentId := aid, senderUserId := u, body := body, attachmentUrl := att }
      = (db, Except.error "unauthorized to send message to this appointment")
  ∧ getMessages db aid u limit offset
      = Except.error "unauthorized to view messages for this appointment"
  ∧ markMessagesAsRead db aid u now
      = (db, Except.error "unauthorized to mark messages as read for this appointment")
  ∧ getUnreadCount db aid u
      = Except.error "unauthorized to get unread count for this appointment"
  ∧ createPrescription db
      { appointmentId := aid, items := items, notes := nts, createdByDoctorId := u }
      = (db, Except.error "unauthorized to create prescription for this appointment")
  ∧ getPrescriptions db aid u
      = Except.error "unauthorized to view prescriptions for this appointment"
  ∧ getVideoSessionsByAppointment db aid u
      = Except.error "unauthorized to view video sessions for this appointment"
  ∧ createVideoSession db { appointmentId := aid, createdByUserId := u } u room
      = (db, Except.error "unauthorized to create video session for this appointment")
  ∧ (∀ pid p, prescriptionFindByID db pid = some p → p.appointmentId = aid →
        getPrescriptionDetails db pid u
          = Except.error "unauthorized to view this prescription"
      ∧ updatePrescription db { prescriptionId := pid, doctorId := u, items := items, notes := nts }
          = (db, Except.error "unauthorized to update this prescription")
      ∧ deletePrescription db pid u
          = (db, Except.error "unauthorized to delete this prescription"))
  ∧ (∀ sid v, videoSessionFindByID db sid = some v → v.appointmentId = aid →
        validateSessionAccess db sid u
          = Except.error "unauthorized to access this video session"
      ∧ handlerGetVideoSession db sid u
          = Except.error "unauthorized to access this video session"
      ∧ startVideoSession db sid u now
          = (db, Except.error "unauthorized to access this video session")
      ∧ endVideoSession db sid u now
          = (db, Except.error "unauthorized to access this video session")
      ∧ getWebRTCOffer db sid u
          = Except.error "unauthorized to access this video session"
      ∧ setWebRTCAnswer db sid u
          = Except.error "unauthorized to access this video session") := by
  have hnp : notParticipant a u = true := notParticipant_eq_true hp hd
  have hbd : (a.doctorId != u) = true := bne_iff_ne.mpr hd
  refine ⟨?_, ?_, ?_, ?_, ?_, ?_, ?_, ?_, ?_, ?_⟩
  · unfold sendMessage
    rw [hfind]
    simp [hnp]
  · unfold getMessages
    rw [hfind]
    simp [hnp]
  · unfold markMessagesAsRead
    rw [hfind]
    simp [hnp]
  · unfold getUnreadCount
    rw [hfind]
    simp [hnp]
  · unfold createPrescription
    rw [hfind]
    simp [hbd]
  · unfold getPrescriptions
    rw [hfind]
    simp [hnp]
  · unfold getVideoSessionsByAppointment
    rw [hfind]
    simp [hnp]
  · unfold createVideoSession
    rw [hfind]
    simp [hnp]
  · intro pid p hpp hpa
    refine ⟨?_, ?_, ?_⟩
    · unfold getPrescriptionDetails
      rw [hpp]
      simp [hpa, hfind, hnp]
    · unfold updatePrescription
      rw [hpp]
      simp [hpa, hfind, hbd]
    · unfold deletePrescription
      rw [hpp]
      simp [hpa, hfind, hbd]
  · intro sid v hv hva
    have hval : validateSessionAccess db sid u
        = Except.error "unauthorized to access this video session" := by
      unfold validateSessionAccess
      rw [hv]
      simp [hva, hfind, hnp]
    refine ⟨hval, ?_, ?_, ?_, ?_, ?_⟩
    · unfold handlerGetVideoSession getVideoSession
      rw [hv]
      simp [hval]
    · unfold startVideoSession
      rw [hval]
    · unfold endVideoSession
      rw [hval]
    · unfold getWebRTCOffer
      rw [hval]
    · unfold setWebRTCAnswer
      rw [hval]

/-- Witness for C4: user 3, a stranger to appointment 1, is rejected by a
chat write, a prescription update and the video-session read. -/
theorem c4_non_participant_always_rejected_witness :
    sendMessage dbBooked { appointmentId := 1, senderUserId := 3, body := "hi", attachmentUrl := none }
      = (dbBooked, Except.error "unauthorized to send message to this appointment")
  ∧ updatePrescription dbBooked
      { prescriptionId := 1, doctorId := 3, items := [itemIbu], notes := "" }
      = (dbBooked, Except.error "unauthorized to update this prescription")
  ∧ handlerGetVideoSession dbBooked 1 3
      = Except.error "unauthorized to access this video session" := by
  have h := c4_non_participant_always_rejected dbBooked 1 3 apptPending 10 0 5 "hi" none
    [itemIbu] "" "room2" rfl (by decide) (by decide)
  obtain ⟨h1, h2, h3, h4, h5, h6, h7, h8, h9, h10⟩ := h
  exact ⟨h1, (h9 1 prescOne rfl rfl).2.1, (h10 1 sessionOne rfl rfl).2.1⟩

end OMCA
